import Mathlib

/-!
Verification of the FPP-3 rotary-processor control core
(`rotary_processor.ino`, firmware v5.1.2) against its specification.

The file shallowly embeds the relevant parts of the firmware: machine
integers become `Nat`/`Int` with explicit wrapping where the C code casts,
the C `float` temperature arithmetic is carried exactly in `ℚ`, stateful
functions become explicit state-passing functions, and `millis()` values
are `Nat` ticks (monotone, used only for differences).
-/

namespace FPP

/-! ## Compile-time constants (from the PARAMETERS section of the source) -/

def deltaMax : Int := 15
def wTankHigh : Int := 86
def nFullRev : Int := 3
def wMotorMax : Int := 255
def accelCycleTime : Nat := 300

/-- `wTankInt = wTankHigh - deltaMax` (setup). -/
def wTankInt : Int := wTankHigh - deltaMax

/-- `wTankLow = wTankInt - deltaMax` (setup). -/
def wTankLow : Int := wTankInt - deltaMax

/-- `wMotorMin = wMotorMax * wTankLow / wTankHigh` (setup, integer division). -/
def wMotorMin : Int := wMotorMax * wTankLow / wTankHigh

def SETTINGS_VERSION : Nat := 4

/-! ## C arithmetic helpers -/

/-- C/C++ signed integer division truncates toward zero. -/
def cdiv (a b : Int) : Int := Int.tdiv a b

/-- Arduino `map(x, inLo, inHi, outLo, outHi)` over `long`. -/
def arduinoMap (x inLo inHi outLo outHi : Int) : Int :=
  cdiv ((x - inLo) * (outHi - outLo)) (inHi - inLo) + outLo

/-- Arduino `constrain(x, lo, hi)`. -/
def constrain (x lo hi : Int) : Int :=
  if x < lo then lo else if x > hi then hi else x

/-- Cast to `uint16_t`. -/
def u16 (n : Nat) : Nat := n % 65536

/-- Cast to `uint8_t`. -/
def u8 (n : Nat) : Nat := n % 256

/-! ## Settings record (EEPROM persisted aggregate) -/

/-- `struct DevStep { uint8_t minutes; uint8_t seconds; uint8_t defined; }` -/
structure DevStep where
  minutes : Nat
  seconds : Nat
  defined : Nat
deriving DecidableEq, Repr

/-- `struct Settings` — the persisted aggregate.  `devSteps` models the
C array of 10 entries (indices 1..9 used). -/
structure Settings where
  version : Nat
  tMinutes : Nat
  tSeconds : Nat
  devSteps : List DevStep
  profileIndex : Nat
  offHtr_10 : Int
  offBath_10 : Int
  offTank_10 : Int
  offBottle_10 : Int
deriving DecidableEq, Repr

/-- The live globals that `loadSettings`/`saveSettings` exchange with the
persisted record: `tMinutes`, `tSeconds`, `currentProfile` and the four
live calibration offsets. -/
structure Globals where
  tMinutes : Nat
  tSeconds : Nat
  currentProfile : Nat
  offHtr_10 : Int
  offBath_10 : Int
  offTank_10 : Int
  offBottle_10 : Int
deriving DecidableEq, Repr

/-- Number of profiles in the catalog (`sizeof(profiles)/sizeof(profiles[0])`). -/
def NPROFILES : Nat := 17

/-- `factoryResetSettings()` : the record written on version mismatch. -/
def factoryResetSettings : Settings :=
  { version := SETTINGS_VERSION
    tMinutes := 5
    tSeconds := 0
    devSteps := List.replicate 10 ⟨0, 0, 0⟩
    profileIndex := 1
    offHtr_10 := 0
    offBath_10 := 0
    offTank_10 := 0
    offBottle_10 := 0 }

/-- `loadSettings()` : reads the persisted record `rec`; on a version
mismatch factory-resets (and rewrites EEPROM) first; then copies the
persisted fields into the live globals, replacing an out-of-range stored
profile index by the default 1.  Returns
(EEPROM content after the call, in-memory `settings`, live globals). -/
def loadSettings (rec : Settings) : Settings × Settings × Globals :=
  let s := if rec.version ≠ SETTINGS_VERSION then factoryResetSettings else rec
  (s, s,
    { tMinutes := s.tMinutes
      tSeconds := s.tSeconds
      currentProfile := if s.profileIndex < NPROFILES then s.profileIndex else 1
      offHtr_10 := s.offHtr_10
      offBath_10 := s.offBath_10
      offTank_10 := s.offTank_10
      offBottle_10 := s.offBottle_10 })

/-- `saveSettings()` : refreshes the in-memory `settings` struct from the
live globals (with the C casts to `uint16_t`/`uint8_t`) and writes it to
EEPROM.  `devSteps` is kept — the struct is mutated in place. -/
def saveSettings (g : Globals) (s : Settings) : Settings :=
  { s with
    version := SETTINGS_VERSION
    tMinutes := u16 g.tMinutes
    tSeconds := u16 g.tSeconds
    profileIndex := u8 g.currentProfile
    offHtr_10 := g.offHtr_10
    offBath_10 := g.offBath_10
    offTank_10 := g.offTank_10
    offBottle_10 := g.offBottle_10 }

/-! ## Profile catalog -/

/-- `struct DevProfile` — immutable catalog entry. -/
structure DevProfile where
  id : Nat
  process : String
  setC_tenths : Int
  tank : Nat
  vol_ml : Nat
  dT_pour_10 : Int
  tmin_pre_s : Nat
  dT_boost_10 : Int
deriving DecidableEq, Repr

/-- `const DevProfile profiles[]` — the catalog, verbatim from the source. -/
def profiles : List DevProfile :=
  [ ⟨1, "BW ", 200, 2521, 330, 0, 60, 0⟩,
    ⟨2, "C41", 380, 2521, 330, 5, 300, 0⟩,
    ⟨3, "E6 ", 380, 2521, 330, 5, 300, 0⟩,
    ⟨4, "BW ", 200, 2551, 730, 0, 60, 0⟩,
    ⟨5, "C41", 380, 2551, 730, 5, 300, 0⟩,
    ⟨6, "E6 ", 380, 2551, 730, 5, 300, 0⟩,
    ⟨7, "BW ", 200, 2561, 1000, 0, 60, 0⟩,
    ⟨8, "C41", 380, 2561, 1000, 5, 300, 0⟩,
    ⟨9, "E6 ", 380, 2561, 1000, 5, 300, 0⟩,
    ⟨10, "BW ", 200, 2821, 40, 3, 45, 0⟩,
    ⟨11, "RA4", 350, 2821, 40, 3, 45, 0⟩,
    ⟨12, "BW ", 200, 2831, 100, 3, 60, 0⟩,
    ⟨13, "RA4", 350, 2831, 100, 3, 60, 0⟩,
    ⟨14, "BW ", 200, 2841, 120, 3, 60, 0⟩,
    ⟨15, "RA4", 350, 2841, 120, 3, 60, 0⟩,
    ⟨16, "BW ", 200, 2851, 200, 3, 60, 0⟩,
    ⟨17, "RA4", 350, 2851, 200, 3, 60, 0⟩ ]

/-- `profiles[i]` (in-range access; out of range never occurs, see C10). -/
def profileAt (i : Nat) : DevProfile := profiles.getD i ⟨1, "BW ", 200, 2521, 330, 0, 60, 0⟩

/-! ## Profile jump  (ST_WAIT, TEMP page, `"# <1-2 digits> #"`) -/

/-- `atoi(profBuf)` where `profBuf` holds the accumulated digits
(most significant first, at most two — the accumulation guard
`profIdx < 2` drops further digits). -/
def bufVal : List Nat → Nat
  | [] => 0
  | [d] => d
  | d1 :: d2 :: _ => 10 * d1 + d2

/-- The closing-`'#'` handler: scans `profiles[0..NPROFILES)` in order for
the first entry whose `id` equals `(uint8_t)want`; on a hit the catalog
index becomes the current profile and `saveSettings` is requested.
Returns (new current profile, settings commit requested). -/
def jumpApply (want : Nat) (cur : Nat) : Nat × Bool :=
  match (List.range NPROFILES).find? (fun i => (profileAt i).id = u8 want) with
  | some i => (i, true)
  | none => (cur, false)

/-- Pending profile-jump accumulation state
(`profSelectMode`, `profBuf`/`profIdx`). -/
structure JumpState where
  profSelectMode : Bool
  buf : List Nat
  currentProfile : Nat
  commits : Nat          -- ghost: number of saveSettings requests
deriving DecidableEq, Repr

/-- One keypress of the TEMP-page profile-select logic of `ST_WAIT`
(section 2b of the source), restricted to the jump accumulation:
`'#'` outside jump mode arms it, digits accumulate (at most two),
`'#'` inside jump mode resolves via `jumpApply`, anything else cancels. -/
def jumpKey (st : JumpState) (k : Char) : JumpState :=
  if st.profSelectMode then
    if '0' ≤ k ∧ k ≤ '9' then
      if st.buf.length < 2 then
        { st with buf := st.buf ++ [k.toNat - '0'.toNat] }
      else st
    else if k = '#' then
      let want := bufVal st.buf
      let (cur, found) := jumpApply want st.currentProfile
      { profSelectMode := false, buf := [],
        currentProfile := cur,
        commits := if found then st.commits + 1 else st.commits }
    else
      { st with profSelectMode := false, buf := [] }
  else
    if k = '#' then
      { st with profSelectMode := true, buf := [] }
    else st

/-- Run a sequence of keypresses through the jump machine. -/
def jumpRun (st : JumpState) (ks : List Char) : JumpState :=
  ks.foldl jumpKey st

/-! ## Speed Adapter (`setTankSpeed`) -/

/-- The candidate tank speed computed from a raw pot reading:
`delta = map(pot, 0, 1023, -deltaMax, deltaMax)`,
`newWTank = constrain(wTankInt + delta, wTankLow, wTankHigh)`. -/
def tankCandidate (potValue : Int) : Int :=
  constrain (wTankInt + arduinoMap potValue 0 1023 (-deltaMax) deltaMax) wTankLow wTankHigh

/-- `theCycleTiming = (nFullRev * 60000UL) / wTank + accelCycleTime`
(for the positive speeds the clamp guarantees, C unsigned division
agrees with truncating division). -/
def cycleTimingOf (w : Int) : Int := cdiv (nFullRev * 60000) w + (accelCycleTime : Int)

/-- `breakCycleTime = theCycleTiming - accelCycleTime`. -/
def breakCycleOf (w : Int) : Int := cycleTimingOf w - (accelCycleTime : Int)

/-- `wMean = wTank * (theCycleTiming - accelCycleTime) / theCycleTiming`
(integer arithmetic; the C code casts the result to `float`). -/
def wMeanOf (w : Int) : Int := cdiv (w * (cycleTimingOf w - (accelCycleTime : Int))) (cycleTimingOf w)

/-- The state read and written by `setTankSpeed`. -/
structure SpeedState where
  nextSpeedUpdate : Nat
  lastWTank : Int
  wTank : Int
  theCycleTiming : Int
  breakCycleTime : Int
  wMean : Int
  wMotor : Int
  motorRunStartTime : Nat
deriving DecidableEq, Repr

/-- `setTankSpeed()` : rate-limited (every ≥200 ms) re-sampling of the pot;
the candidate is accepted only when it differs from the last accepted
speed by at least `RPM_THRESHOLD = 2`; on acceptance the cycle timings,
the mean speed and (only while the motor runs) the motor duty target are
recomputed. -/
def setTankSpeed (st : SpeedState) (potValue : Int) (currTime : Nat) : SpeedState :=
  if currTime - st.nextSpeedUpdate ≥ 200 then
    let st := { st with nextSpeedUpdate := currTime }
    let newWTank := tankCandidate potValue
    if |newWTank - st.lastWTank| ≥ 2 then
      { st with
        wTank := newWTank
        lastWTank := newWTank
        theCycleTiming := cycleTimingOf newWTank
        breakCycleTime := breakCycleOf newWTank
        wMean := wMeanOf newWTank
        wMotor :=
          if st.motorRunStartTime ≠ 0 then
            constrain (arduinoMap newWTank wTankLow wTankHigh wMotorMin wMotorMax) 0 255
          else st.wMotor }
    else st
  else st

/-! ## Motor Drive Controller (`runMotor`) -/

/-- `enum MotorCommand` — also used for the motor's internal state
(`currentStateMotor` only ever holds `FORCESTOP`, `CW` or `CCW`). -/
inductive MotorCommand where
  | CONTINUE | START | FORCESTOP | CW | CCW
deriving DecidableEq, Repr

/-- `enum RunMode`. -/
inductive RunMode where
  | IDLE | DEV | PREHEAT
deriving DecidableEq, Repr

/-- All state read/written by `runMotor`: its statics
(`motorCycleStartTime`), the globals it owns, the H-bridge duty outputs
(last `analogWrite` values on RPWM/LPWM) and the buzzer flag.
`stopSignals` is a ghost counter: it increments exactly when the
total-duration stop fires (where the code sets `showMenuAfterStop`). -/
structure MotorState where
  motorRunStartTime : Nat
  motorCycleStartTime : Nat
  currentStateMotor : MotorCommand
  wMotor : Int
  rpwm : Int
  lpwm : Int
  beepActive : Bool
  showMenuAfterStop : Bool
  stopTimeMs : Nat
  runMode : RunMode
  stopSignals : Nat
deriving DecidableEq, Repr

/-- The duty written during the phase section of `runMotor` for elapsed
cycle time `tElapsed`: ramp-up by linear `map` on `[0, accelCycleTime]`,
constant on `(accelCycleTime, breakCycleTime]`, ramp-down on
`(breakCycleTime, theCycleTiming)`; `none` = no write. -/
def phaseDuty (tElapsed theCycleTiming breakCycleTime : Nat) (wMotor : Int) : Option Int :=
  if tElapsed ≤ accelCycleTime then
    some (arduinoMap (tElapsed : Int) 0 (accelCycleTime : Int) 0 wMotor)
  else if tElapsed ≤ breakCycleTime then
    some wMotor
  else if tElapsed < theCycleTiming then
    some (arduinoMap (tElapsed : Int) (breakCycleTime : Int) (theCycleTiming : Int) wMotor 0)
  else none

/-- The START initialization of `runMotor`: record run and cycle start
times, compute the target duty from `wTank` by the linear RPM→duty map
(clamped to [0, 255]) and enter the forward (CW) state. -/
def motorStartInit (now : Nat) (wTank : Int) (st : MotorState) : MotorState :=
  let w := constrain (arduinoMap wTank wTankLow wTankHigh wMotorMin wMotorMax) 0 255
  { st with
    motorRunStartTime := now
    motorCycleStartTime := now
    wMotor := w
    currentStateMotor :=
      if 0 ≤ w ∧ w ≤ 255 then .CW else st.currentStateMotor }

/-- The acceleration / constant / braking output section of `runMotor`:
writes the phase duty on the pin selected by the rotation direction. -/
def motorPhaseStage (now theCycleTiming breakCycleTime : Nat) (st : MotorState) : MotorState :=
  match phaseDuty (now - st.motorCycleStartTime) theCycleTiming breakCycleTime st.wMotor with
  | some v =>
    match st.currentStateMotor with
    | .CW => { st with lpwm := 0, rpwm := v }
    | .CCW => { st with rpwm := 0, lpwm := v }
    | _ => st
  | none => st

/-- The direction-reversal section of `runMotor`: at a cycle boundary
both outputs stop briefly, the cycle clock resets and direction flips. -/
def motorDirStage (now theCycleTiming : Nat) (st : MotorState) : MotorState :=
  if st.currentStateMotor ≠ .FORCESTOP ∧ now - st.motorCycleStartTime ≥ theCycleTiming then
    { st with
      rpwm := 0, lpwm := 0
      motorCycleStartTime := now
      currentStateMotor :=
        match st.currentStateMotor with
        | .CW => .CCW
        | .CCW => .CW
        | s => s }
  else st

/-- The total-duration stop of `runMotor`: zero both outputs, clear the
run-start timestamp, silence the buzzer, signal "run completed"
(`showMenuAfterStop`, counted by the ghost `stopSignals`) and return the
operating mode to idle. -/
def motorTimedStop (now : Nat) (st : MotorState) : MotorState :=
  { st with
    rpwm := 0, lpwm := 0
    motorRunStartTime := 0
    currentStateMotor := .FORCESTOP
    beepActive := false
    showMenuAfterStop := true
    stopTimeMs := now
    runMode := .IDLE
    stopSignals := st.stopSignals + 1 }

/-- The FORCESTOP branch of `runMotor`: zero both outputs, clear the
run-start timestamp, silence the buzzer. -/
def motorForceStop (st : MotorState) : MotorState :=
  { st with
    lpwm := 0, rpwm := 0
    motorRunStartTime := 0
    currentStateMotor := .FORCESTOP
    beepActive := false }

/-- `runMotor(command)` at time `now` (`millis()`), with the globals
`theTiming` (total run time, s), `theCycleTiming`/`breakCycleTime` (ms)
and `wTank` as parameters.  Faithful to the source's control flow:
START initialization, early return when force-stopped, phase output,
direction reversal at a cycle boundary, total-duration stop (which also
signals "run completed" and resets the mode), then FORCESTOP. -/
def runMotor (cmd : MotorCommand) (now : Nat)
    (theTiming theCycleTiming breakCycleTime : Nat) (wTank : Int)
    (st : MotorState) : MotorState :=
  -- if START received and motor not started yet
  let st :=
    if cmd = .START ∧ st.motorRunStartTime = 0 then motorStartInit now wTank st else st
  -- if motor is forced stopped, do nothing
  if st.currentStateMotor = .FORCESTOP then st
  else
    let st := motorPhaseStage now theCycleTiming breakCycleTime st
    let st := motorDirStage now theCycleTiming st
    -- stop when total programmed time elapses
    if st.motorRunStartTime ≠ 0 ∧ now - st.motorRunStartTime ≥ theTiming * 1000 then
      motorTimedStop now st
    -- FORCESTOP (key D)
    else if cmd = .FORCESTOP then motorForceStop st
    else st

/-- The motor state at power-up: stopped, outputs zero, no pending
"run completed" signal. -/
def motorInit : MotorState :=
  { motorRunStartTime := 0
    motorCycleStartTime := 0
    currentStateMotor := .FORCESTOP
    wMotor := 0
    rpwm := 0
    lpwm := 0
    beepActive := false
    showMenuAfterStop := false
    stopTimeMs := 0
    runMode := .IDLE
    stopSignals := 0 }

/-! ## Preheat readiness latch (`isPreheatReady`) -/

def BAND_IN_10 : Int := 3
def BAND_OUT_10 : Int := 5
def HOLD_MS : Nat := 30 * 1000
def PREHEAT_READY_MS : Nat := 10 * 1000

/-- The latch statics `(inBandStartMs, readyLatched)`;
`inBandStartMs = 0` means "not set". -/
structure LatchState where
  inBandStartMs : Nat
  readyLatched : Bool
deriving DecidableEq, Repr

/-- One evaluation of the latch on a valid bath sample: `now` is
`millis()`, `diff` is `|bath10 - set10|` (tenths, already non-negative).
Unlatched: in the enter band the in-band anchor is set (if unset) and
the latch closes once the anchor is `HOLD_MS` old; out of the enter band
the anchor is cleared.  Latched: leaving the wider exit band unlatches
and clears the anchor. -/
def latchStep (st : LatchState) (now : Nat) (diff : Int) : LatchState :=
  if !st.readyLatched then
    if diff ≤ BAND_IN_10 then
      let inB := if st.inBandStartMs = 0 then now else st.inBandStartMs
      { inBandStartMs := inB, readyLatched := decide (now - inB ≥ HOLD_MS) }
    else
      { inBandStartMs := 0, readyLatched := false }
  else
    if diff > BAND_OUT_10 then
      { inBandStartMs := 0, readyLatched := false }
    else st

/-- Full latch state of `isPreheatReady`, including the profile-change
detector `lastProf`. -/
structure PreheatState where
  inBandStartMs : Nat
  readyLatched : Bool
  lastProf : Nat
deriving DecidableEq, Repr

/-- `isPreheatReady()`.  `bath` is the bath reading: `none` when the
sensor is invalid (`tempBathC` outside `(-50, 100)`), otherwise the
reading rounded to tenths (the code's `bath10`).  Returns
(readiness, new latch state). -/
def isPreheatReady (mode : RunMode) (preheatStartTimeMs now : Nat)
    (currentProfile : Nat) (bath : Option Int) (st : PreheatState) :
    Bool × PreheatState :=
  -- reset when not preheating
  if mode ≠ .PREHEAT ∨ preheatStartTimeMs = 0 then
    (false, ⟨0, false, currentProfile⟩)
  else
    -- if profile changes while in PREHEAT, reset
    let st := if st.lastProf ≠ currentProfile then ⟨0, false, currentProfile⟩ else st
    match bath with
    | none =>
      -- invalid bath: time fallback
      (decide (now - preheatStartTimeMs ≥ PREHEAT_READY_MS), st)
    | some bath10 =>
      let set10 := (profileAt currentProfile).setC_tenths
      let diff := |bath10 - set10|
      let l := latchStep ⟨st.inBandStartMs, st.readyLatched⟩ now diff
      (l.readyLatched, ⟨l.inBandStartMs, l.readyLatched, st.lastProf⟩)

/-- Fold the latch over a list of `(now, diff)` samples. -/
def runLatch (st : LatchState) (samples : List (Nat × Int)) : LatchState :=
  samples.foldl (fun s p => latchStep s p.1 p.2) st

/-- `hasHoldWindow s L` : scanning `L`, some contiguous run of samples
in the enter band — continuing a run started at time `s` if `s ≠ 0` —
reaches a sample at least `HOLD_MS` after the run's start. -/
def hasHoldWindow : Nat → List (Nat × Int) → Bool
  | _, [] => false
  | s, (t, d) :: rest =>
    if d ≤ BAND_IN_10 then
      let s' := if s = 0 then t else s
      decide (t - s' ≥ HOLD_MS) || hasHoldWindow s' rest
    else hasHoldWindow 0 rest

/-! ## Calibration mode (`ST_CAL`) -/

/-- `calPtrForPage` as a read: selects the live offset edited on page
`p` (`CAL_HTR = 0, CAL_BATH = 1, CAL_TANK = 2, CAL_BOTTLE = 3`;
the C default branch yields `offBath_10`). -/
def calGet (p : Nat) (g : Globals) : Int :=
  match p with
  | 0 => g.offHtr_10
  | 1 => g.offBath_10
  | 2 => g.offTank_10
  | 3 => g.offBottle_10
  | _ => g.offBath_10

/-- `calPtrForPage` as a write. -/
def calSet (p : Nat) (v : Int) (g : Globals) : Globals :=
  match p with
  | 0 => { g with offHtr_10 := v }
  | 1 => { g with offBath_10 := v }
  | 2 => { g with offTank_10 := v }
  | 3 => { g with offBottle_10 := v }
  | _ => { g with offBath_10 := v }

/-- One keypress in `ST_CAL`, acting on (calPage, live globals,
EEPROM-backed `settings`): `'#'`/`'*'` page forward/backward,
`'A'`/`'B'` bump the live offset by ±1 tenth (clamped to ±999),
`'C'` commits via `saveSettings`, `'D'` discards by restoring the live
offsets from the last committed `settings`. -/
def calStep (k : Char) (st : Nat × Globals × Settings) : Nat × Globals × Settings :=
  let (p, g, s) := st
  if k = '#' then ((p + 1) % 4, g, s)
  else if k = '*' then ((p + 3) % 4, g, s)
  else if k = 'A' then
    (p, (if calGet p g < 999 then calSet p (calGet p g + 1) g else g), s)
  else if k = 'B' then
    (p, (if calGet p g > -999 then calSet p (calGet p g - 1) g else g), s)
  else if k = 'C' then (p, g, saveSettings g s)
  else if k = 'D' then
    (p,
      { g with
        offHtr_10 := s.offHtr_10
        offBath_10 := s.offBath_10
        offTank_10 := s.offTank_10
        offBottle_10 := s.offBottle_10 }, s)
  else (p, g, s)

/-- Run a key sequence through the calibration handler. -/
def calRun (ks : List Char) (st : Nat × Globals × Settings) : Nat × Globals × Settings :=
  ks.foldl (fun st k => calStep k st) st

/-! ## Thermal Estimator (`updateDerivedTemps`)

The C code computes in `float`; the embedding carries the same formulas
exactly in `ℚ`.  The sentinel `-99.9` is `-999/10`. -/

def SENTINEL_C : ℚ := -999 / 10

/-- `isValidTempC`. -/
def isValidTempC (t : ℚ) : Bool := -50 < t ∧ t < 100

/-- Truncation toward zero (the C `(int16_t)` cast on a float). -/
def ratTrunc (q : ℚ) : Int := if 0 ≤ q then ⌊q⌋ else ⌈q⌉

/-- `roundC_to_10` : degrees → tenths, rounding half away from zero. -/
def roundC_to_10 (t : ℚ) : Int :=
  ratTrunc (t * 10 + (if 0 ≤ t then (1 : ℚ) / 2 else -(1 : ℚ) / 2))

/-- `rpmFromPwm` : `RPM = (355135*pwm - 1513883) / 1e6`, clamped below
at 0, rounded to the nearest RPM (integer arithmetic on `long`). -/
def rpmFromPwm (pwm : Int) : Int :=
  let r := 355135 * pwm - 1513883
  let r := if r < 0 then 0 else r
  cdiv (r + 500000) 1000000

/-- `computeTauS(vol_ml, rpm)` : base 30 s, +15 s per 100 mL,
+30 s · (80/rpm) with an RPM floor of 5, clamped to [10, 600] s. -/
def computeTauS (vol_ml : Nat) (rpm : Int) : ℚ :=
  let tau : ℚ := 30 + 15 * ((vol_ml : ℚ) / 100)
  let rpm : Int := if rpm < 5 then 5 else rpm
  let tau := tau + 30 * (80 / (rpm : ℚ))
  let tau := if tau < 10 then (10 : ℚ) else tau
  if tau > 600 then (600 : ℚ) else tau

/-- State owned by the thermal estimator.  `seedCount` is a ghost
counter incremented exactly when the one-shot development initial
condition fires; `seedValue` records the value that assignment wrote. -/
structure ThermoState where
  tempMeanC : ℚ
  tempDevC : ℚ
  devJustStarted : Bool
  seedCount : Nat
  seedValue : Option ℚ
deriving DecidableEq, Repr

/-- The inputs `updateDerivedTemps` reads from the rest of the system. -/
structure ThermoIn where
  runMode : RunMode
  motorRunStartTime : Nat
  currentProfile : Nat
  pwmPreheat : Int
  wTank : Int
  tempBathC : ℚ
  tempTankC : ℚ
  tempBottleC : ℚ
deriving DecidableEq, Repr

/-- The mean of the currently valid corrected sensors
(`tempMeanC = sum/n` or the sentinel when none is valid). -/
def thermoMean (inp : ThermoIn) : ℚ :=
  let valids := [inp.tempBathC, inp.tempTankC, inp.tempBottleC].filter (fun t => isValidTempC t)
  if valids.length > 0 then valids.sum / (valids.length : ℚ) else SENTINEL_C

/-- The mode-dependent driver temperature for the lag model: preheat
prefers the tank-contact sensor, development/idle prefers the mean,
each falling back through the remaining sensors, else the sentinel. -/
def thermoDrive (inp : ThermoIn) : ℚ :=
  if inp.runMode = .PREHEAT then
    if isValidTempC inp.tempTankC then inp.tempTankC
    else if isValidTempC (thermoMean inp) then thermoMean inp
    else if isValidTempC inp.tempBathC then inp.tempBathC
    else SENTINEL_C
  else
    if isValidTempC (thermoMean inp) then thermoMean inp
    else if isValidTempC inp.tempTankC then inp.tempTankC
    else if isValidTempC inp.tempBathC then inp.tempBathC
    else if isValidTempC inp.tempBottleC then inp.tempBottleC
    else SENTINEL_C

/-- The one-shot development pour initial condition: when the seed is
armed and a development run is in progress, `tempDevC` is assigned the
bottle reading in tenths minus the profile's `dT_pour_10` (falling back
to the driver when the bottle is invalid) and the seed is disarmed.
Ghosts: `seedCount` counts the firings, `seedValue` records the
assigned value. -/
def thermoSeed (inp : ThermoIn) (st : ThermoState) : ThermoState :=
  if st.devJustStarted ∧ inp.runMode = .DEV ∧ inp.motorRunStartTime > 0 then
    let ic :=
      if isValidTempC inp.tempBottleC then
        ((roundC_to_10 inp.tempBottleC - (profileAt inp.currentProfile).dT_pour_10 : Int) : ℚ) / 10
      else if isValidTempC (thermoDrive inp) then thermoDrive inp else SENTINEL_C
    { st with
      tempDevC := ic
      devJustStarted := false
      seedCount := st.seedCount + 1
      seedValue := some ic }
  else st

/-- The first-order lag step `estimate += alpha * (driver - estimate)`
with `alpha = dt/tau` clamped to [0, 1]; also publishes the fresh mean. -/
def thermoLag (inp : ThermoIn) (st : ThermoState) : ThermoState :=
  let rpmNow := if inp.runMode = .PREHEAT then rpmFromPwm inp.pwmPreheat else inp.wTank
  let vol_ml := if inp.runMode = .PREHEAT then 0 else (profileAt inp.currentProfile).vol_ml
  if isValidTempC (thermoDrive inp) then
    let dev0 := if !isValidTempC st.tempDevC then thermoDrive inp else st.tempDevC
    let tauS := computeTauS vol_ml rpmNow
    let alpha := (1000 : ℚ) / (tauS * 1000)
    let alpha := if alpha > 1 then (1 : ℚ) else alpha
    let alpha := if alpha < 0 then (0 : ℚ) else alpha
    { st with tempMeanC := thermoMean inp,
              tempDevC := dev0 + alpha * (thermoDrive inp - dev0) }
  else
    { st with tempMeanC := thermoMean inp, tempDevC := SENTINEL_C }

/-- `updateDerivedTemps()` : mean of valid sensors, mode-dependent
driver selection, the one-shot development pour initial condition for
`tempDevC`, then the first-order lag step. -/
def updateDerivedTemps (inp : ThermoIn) (st : ThermoState) : ThermoState :=
  thermoLag inp (thermoSeed inp st)

/-- Fold the thermal update over successive 1 Hz inputs. -/
def runThermo (st : ThermoState) (L : List ThermoIn) : ThermoState :=
  L.foldl (fun s i => updateDerivedTemps i s) st

/-! ## Helper lemmas -/

theorem constrain_ge (x lo hi : Int) (h : lo ≤ hi) : lo ≤ constrain x lo hi := by
  unfold constrain; split <;> rename_i h1
  · exact le_refl lo
  · split <;> omega

theorem constrain_le (x lo hi : Int) (h : lo ≤ hi) : constrain x lo hi ≤ hi := by
  unfold constrain; split <;> rename_i h1
  · exact h
  · split <;> omega

/-! ## Claim theorems -/

/-- Claim C2 (version-mismatch reset): for every persisted record whose
version differs from `SETTINGS_VERSION = 4`, `loadSettings` rewrites the
EEPROM with the documented default aggregate (tMinutes 5, tSeconds 0,
all steps undefined, offsets 0, profile index 1), returns exactly that
aggregate, and loads the default live globals — no field of the old
record survives. -/
theorem load_version_mismatch_resets (rec : Settings)
    (h : rec.version ≠ SETTINGS_VERSION) :
    loadSettings rec =
      ({ version := 4, tMinutes := 5, tSeconds := 0,
         devSteps := List.replicate 10 ⟨0, 0, 0⟩, profileIndex := 1,
         offHtr_10 := 0, offBath_10 := 0, offTank_10 := 0, offBottle_10 := 0 },
       { version := 4, tMinutes := 5, tSeconds := 0,
         devSteps := List.replicate 10 ⟨0, 0, 0⟩, profileIndex := 1,
         offHtr_10 := 0, offBath_10 := 0, offTank_10 := 0, offBottle_10 := 0 },
       { tMinutes := 5, tSeconds := 0, currentProfile := 1,
         offHtr_10 := 0, offBath_10 := 0, offTank_10 := 0, offBottle_10 := 0 }) := by
  simp only [loadSettings, if_pos h, ne_eq]
  rfl

/-- Witness for C2: a garbage record (wrong version, junk in every
field) loads as the default aggregate. -/
theorem load_version_mismatch_resets_witness :
    loadSettings ⟨99, 777, 888, [⟨1, 2, 3⟩], 200, 5, -6, 7, -8⟩ =
      ({ version := 4, tMinutes := 5, tSeconds := 0,
         devSteps := List.replicate 10 ⟨0, 0, 0⟩, profileIndex := 1,
         offHtr_10 := 0, offBath_10 := 0, offTank_10 := 0, offBottle_10 := 0 },
       { version := 4, tMinutes := 5, tSeconds := 0,
         devSteps := List.replicate 10 ⟨0, 0, 0⟩, profileIndex := 1,
         offHtr_10 := 0, offBath_10 := 0, offTank_10 := 0, offBottle_10 := 0 },
       { tMinutes := 5, tSeconds := 0, currentProfile := 1,
         offHtr_10 := 0, offBath_10 := 0, offTank_10 := 0, offBottle_10 := 0 }) :=
  load_version_mismatch_resets ⟨99, 777, 888, [⟨1, 2, 3⟩], 200, 5, -6, 7, -8⟩ (by decide)

/-- Claim C3 (settings round-trip): for every aggregate with in-range
fields (times fit `uint16_t`, profile index `< NPROFILES`, step fields
fit `uint8_t`, offsets fit `int16_t`), `saveSettings` then
`loadSettings` returns the written record unchanged and restores the
live globals to exactly the values saved. -/
theorem save_load_roundtrip (g : Globals) (s : Settings)
    (hm : g.tMinutes < 65536) (hsec : g.tSeconds < 65536)
    (hp : g.currentProfile < NPROFILES)
    (hsteps : ∀ d ∈ s.devSteps, d.minutes < 256 ∧ d.seconds < 256 ∧ d.defined ≤ 1)
    (h1 : -32768 ≤ g.offHtr_10 ∧ g.offHtr_10 ≤ 32767)
    (h2 : -32768 ≤ g.offBath_10 ∧ g.offBath_10 ≤ 32767)
    (h3 : -32768 ≤ g.offTank_10 ∧ g.offTank_10 ≤ 32767)
    (h4 : -32768 ≤ g.offBottle_10 ∧ g.offBottle_10 ≤ 32767) :
    loadSettings (saveSettings g s) = (saveSettings g s, saveSettings g s, g) := by
  have hu16m : u16 g.tMinutes = g.tMinutes := Nat.mod_eq_of_lt hm
  have hu16s : u16 g.tSeconds = g.tSeconds := Nat.mod_eq_of_lt hsec
  have hu8p : u8 g.currentProfile = g.currentProfile :=
    Nat.mod_eq_of_lt (by unfold NPROFILES at hp; omega)
  simp only [loadSettings, saveSettings, SETTINGS_VERSION, ne_eq, hu16m, hu16s, hu8p]
  rw [if_neg (by simp), if_pos (by simpa using hp)]

/-- Witness for C3: a concrete in-range aggregate survives the
save/load round trip. -/
theorem save_load_roundtrip_witness :
    loadSettings (saveSettings ⟨7, 30, 14, 12, -3, 5, -8⟩
        ⟨4, 7, 30, [⟨1, 2, 1⟩, ⟨0, 0, 0⟩], 14, 12, -3, 5, -8⟩) =
      (saveSettings ⟨7, 30, 14, 12, -3, 5, -8⟩ ⟨4, 7, 30, [⟨1, 2, 1⟩, ⟨0, 0, 0⟩], 14, 12, -3, 5, -8⟩,
       saveSettings ⟨7, 30, 14, 12, -3, 5, -8⟩ ⟨4, 7, 30, [⟨1, 2, 1⟩, ⟨0, 0, 0⟩], 14, 12, -3, 5, -8⟩,
       ⟨7, 30, 14, 12, -3, 5, -8⟩) :=
  save_load_roundtrip ⟨7, 30, 14, 12, -3, 5, -8⟩ ⟨4, 7, 30, [⟨1, 2, 1⟩, ⟨0, 0, 0⟩], 14, 12, -3, 5, -8⟩
    (by decide) (by decide) (by decide) (by decide)
    (by decide) (by decide) (by decide) (by decide)

/-- Claim C9 (cycle-timing well-formedness): every candidate tank speed
derived from a pot reading is clamped into `[wTankLow, wTankHigh]`, in
particular strictly positive (the RPM floor that guards the division),
and for it the computed cycle length is strictly positive with the
brake threshold strictly below it. -/
theorem cycle_timing_wellformed (potValue : Int) :
    wTankLow ≤ tankCandidate potValue ∧ tankCandidate potValue ≤ wTankHigh ∧
    0 < tankCandidate potValue ∧
    0 < cycleTimingOf (tankCandidate potValue) ∧
    breakCycleOf (tankCandidate potValue) < cycleTimingOf (tankCandidate potValue) := by
  have hlo : wTankLow ≤ tankCandidate potValue :=
    constrain_ge _ _ _ (by decide)
  have hhi : tankCandidate potValue ≤ wTankHigh :=
    constrain_le _ _ _ (by decide)
  have hpos : 0 < tankCandidate potValue := by
    have : (0 : Int) < wTankLow := by decide
    omega
  have hdiv : 0 ≤ cdiv (nFullRev * 60000) (tankCandidate potValue) := by
    unfold cdiv
    exact Int.tdiv_nonneg (by decide) (le_of_lt hpos)
  refine ⟨hlo, hhi, hpos, ?_, ?_⟩
  · unfold cycleTimingOf
    have : (0 : Int) < (accelCycleTime : Int) := by decide
    omega
  · unfold breakCycleOf
    have : (0 : Int) < (accelCycleTime : Int) := by decide
    omega

/-- Claim C4 (anti-jitter hysteresis): at a due speed sample, when the
clamped candidate differs from the last accepted speed by less than the
2 RPM threshold, `setTankSpeed` changes nothing except its own
rate-limit deadline: the accepted speed, cycle length, brake threshold,
mean-speed estimate and motor target duty are retained verbatim. -/
theorem antijitter_retains_state (st : SpeedState) (potValue : Int) (currTime : Nat)
    (hdue : currTime - st.nextSpeedUpdate ≥ 200)
    (hsmall : |tankCandidate potValue - st.lastWTank| < 2) :
    setTankSpeed st potValue currTime = { st with nextSpeedUpdate := currTime } := by
  unfold setTankSpeed
  rw [if_pos hdue, if_neg (by simpa using not_le.mpr hsmall)]

/-- Witness for C4: a mid-scale pot reading (candidate 71) against last
accepted speed 71 differs by 0 < 2 and leaves everything but the
deadline unchanged. -/
theorem antijitter_retains_state_witness :
    setTankSpeed ⟨0, 71, 71, 2835, 2535, 63, 200, 5000⟩ 512 300 =
      ⟨300, 71, 71, 2835, 2535, 63, 200, 5000⟩ :=
  antijitter_retains_state ⟨0, 71, 71, 2835, 2535, 63, 200, 5000⟩ 512 300
    (by decide) (by decide)

/-- Claim C5 (profile jump resolves by identifier, not index): when no
catalog entry carries the accumulated id the profile is unchanged and no
commit is requested; when some entry carries it, the new profile is the
index of an entry with that id and a commit is requested; the complete
key sequence `#`,`1`,`5`,`#` selects index 14 — the entry whose id is
15 — from any starting profile. -/
theorem profile_jump_by_id :
    (∀ want cur : Nat,
      (∀ i, i < NPROFILES → (profileAt i).id ≠ u8 want) →
        jumpApply want cur = (cur, false)) ∧
    (∀ want cur i₀ : Nat, i₀ < NPROFILES → (profileAt i₀).id = u8 want →
        ∃ i, i < NPROFILES ∧ (profileAt i).id = u8 want ∧
          jumpApply want cur = (i, true)) ∧
    (∀ cur : Nat,
      jumpRun ⟨false, [], cur, 0⟩ ['#', '1', '5', '#'] = ⟨false, [], 14, 1⟩) ∧
    (profileAt 14).id = 15 := by
  refine ⟨?_, ?_, ?_, rfl⟩
  · intro want cur hnone
    unfold jumpApply
    rw [List.find?_eq_none.mpr]
    intro i hi
    simp only [List.mem_range] at hi
    simpa using hnone i hi
  · intro want cur i₀ h₀ hid
    unfold jumpApply
    have hsome : ((List.range NPROFILES).find?
        (fun i => (profileAt i).id = u8 want)).isSome := by
      rw [List.find?_isSome]
      exact ⟨i₀, by simpa using h₀, by simpa using hid⟩
    obtain ⟨j, hj⟩ := Option.isSome_iff_exists.mp hsome
    refine ⟨j, ?_, ?_, ?_⟩
    · simpa using List.mem_range.mp (List.mem_of_find?_eq_some hj)
    · simpa using List.find?_some hj
    · rw [hj]
  · intro cur
    rfl

/-- Witness for C5: id 99 is absent (profile 3 kept, no commit); id 15
is present and resolves to a valid index with a commit; the concrete key
sequence from profile 9 lands on index 14. -/
theorem profile_jump_by_id_witness :
    jumpApply 99 3 = (3, false) ∧
    (∃ i, i < NPROFILES ∧ (profileAt i).id = u8 15 ∧ jumpApply 15 7 = (i, true)) ∧
    jumpRun ⟨false, [], 9, 0⟩ ['#', '1', '5', '#'] = ⟨false, [], 14, 1⟩ :=
  ⟨profile_jump_by_id.1 99 3 (by decide),
   profile_jump_by_id.2.1 15 7 14 (by decide) (by decide),
   profile_jump_by_id.2.2.1 9⟩

/-- Claim C7 (calibration staging atomicity): the `'A'`/`'B'` edit keys
never touch the committed settings; from committed bath offset 0, three
increments followed by discard (`'D'`) leave both the committed and the
live offset at 0, while three increments followed by save (`'C'`)
commit +3 tenths. -/
theorem calibration_staging :
    (∀ (p : Nat) (g : Globals) (s : Settings), (calStep 'A' (p, g, s)).2.2 = s) ∧
    (∀ (p : Nat) (g : Globals) (s : Settings), (calStep 'B' (p, g, s)).2.2 = s) ∧
    (calRun ['#', 'A', 'A', 'A', 'D'] (0, ⟨5, 0, 1, 0, 0, 0, 0⟩, factoryResetSettings) =
      (1, ⟨5, 0, 1, 0, 0, 0, 0⟩, factoryResetSettings)) ∧
    ((calRun ['#', 'A', 'A', 'A', 'C']
        (0, ⟨5, 0, 1, 0, 0, 0, 0⟩, factoryResetSettings)).2.2.offBath_10 = 3 ∧
     (calRun ['#', 'A', 'A', 'A', 'C']
        (0, ⟨5, 0, 1, 0, 0, 0, 0⟩, factoryResetSettings)).2.1.offBath_10 = 3) := by
  refine ⟨?_, ?_, by decide, by decide, by decide⟩
  · intro p g s
    simp only [calStep]
    split_ifs <;> rfl
  · intro p g s
    simp only [calStep]
    split_ifs <;> rfl

/-- Claim C10 (profile index invariant): profile-forward and
profile-backward cycle modulo `NPROFILES`, a resolved profile jump only
assigns an in-range catalog index, and `loadSettings` replaces an
out-of-range stored index by the default 1 — so `currentProfile` is
always `< NPROFILES` and `profiles[currentProfile]` never reads out of
bounds. -/
theorem profile_index_in_range :
    (∀ p : Nat, (p + 1) % NPROFILES < NPROFILES) ∧
    (∀ p : Nat, (p + NPROFILES - 1) % NPROFILES < NPROFILES) ∧
    (∀ want cur : Nat, cur < NPROFILES → (jumpApply want cur).1 < NPROFILES) ∧
    (∀ rec : Settings, (loadSettings rec).2.2.currentProfile < NPROFILES) := by
  refine ⟨?_, ?_, ?_, ?_⟩
  · intro p; exact Nat.mod_lt _ (by decide)
  · intro p; exact Nat.mod_lt _ (by decide)
  · intro want cur hcur
    unfold jumpApply
    cases hfind : (List.range NPROFILES).find? (fun i => (profileAt i).id = u8 want) with
    | none => simpa using hcur
    | some j =>
      simpa using List.mem_range.mp (List.mem_of_find?_eq_some hfind)
  · intro rec
    simp only [loadSettings]
    split
    · split <;> simp_all [NPROFILES]
    · split <;> simp_all [NPROFILES]

/-- Witness for C10: concrete instances — forward from 16 wraps to 0,
backward from 0 wraps to 16, the jump to the unused id 99 keeps index 3,
and loading a record with stored index 200 yields index 1. -/
theorem profile_index_in_range_witness :
    (16 + 1) % NPROFILES < NPROFILES ∧
    (0 + NPROFILES - 1) % NPROFILES < NPROFILES ∧
    (jumpApply 99 3).1 < NPROFILES ∧
    (loadSettings ⟨4, 5, 0, [], 200, 0, 0, 0, 0⟩).2.2.currentProfile < NPROFILES :=
  ⟨profile_index_in_range.1 16, profile_index_in_range.2.1 0,
   profile_index_in_range.2.2.1 99 3 (by decide),
   profile_index_in_range.2.2.2 ⟨4, 5, 0, [], 200, 0, 0, 0, 0⟩⟩

theorem motorPhaseStage_pres (now c b : Nat) (st : MotorState) :
    (motorPhaseStage now c b st).motorRunStartTime = st.motorRunStartTime ∧
    (motorPhaseStage now c b st).stopSignals = st.stopSignals ∧
    (motorPhaseStage now c b st).currentStateMotor = st.currentStateMotor ∧
    (motorPhaseStage now c b st).motorCycleStartTime = st.motorCycleStartTime := by
  unfold motorPhaseStage
  cases phaseDuty (now - st.motorCycleStartTime) c b st.wMotor with
  | none => exact ⟨rfl, rfl, rfl, rfl⟩
  | some v => cases hcs : st.currentStateMotor <;> simp [hcs]

theorem motorDirStage_pres (now c : Nat) (st : MotorState) :
    (motorDirStage now c st).motorRunStartTime = st.motorRunStartTime ∧
    (motorDirStage now c st).stopSignals = st.stopSignals := by
  unfold motorDirStage
  split <;> simp

/-- Claim C1 (total-duration stop): whenever the motor is running and
the elapsed run time reaches `theTiming * 1000` ms, `runMotor` — on any
command — performs the same stop as FORCESTOP (both duty outputs 0,
run-start timestamp cleared, buzzer silenced), signals "run completed"
exactly once (ghost counter `stopSignals` increments by one) and sets
the operating mode back to idle.  Concretely, for a 00:10 run started at
boot tick 2000 (`millis()` is monotone and only differences matter; the
idle sentinel makes literal tick 0 unreachable after the 2 s boot
splash): at start+5000 the signal has not fired, and at start+10001 it
has fired exactly once with both duty outputs 0 and mode idle. -/
theorem total_duration_stop :
    (∀ (cmd : MotorCommand) (now theTiming theCycleTiming breakCycleTime : Nat)
       (wTank : Int) (st : MotorState),
       st.currentStateMotor ≠ .FORCESTOP →
       st.motorRunStartTime ≠ 0 →
       theTiming * 1000 ≤ now - st.motorRunStartTime →
       (runMotor cmd now theTiming theCycleTiming breakCycleTime wTank st).rpwm = 0 ∧
       (runMotor cmd now theTiming theCycleTiming breakCycleTime wTank st).lpwm = 0 ∧
       (runMotor cmd now theTiming theCycleTiming breakCycleTime wTank st).motorRunStartTime = 0 ∧
       (runMotor cmd now theTiming theCycleTiming breakCycleTime wTank st).currentStateMotor = .FORCESTOP ∧
       (runMotor cmd now theTiming theCycleTiming breakCycleTime wTank st).beepActive = false ∧
       (runMotor cmd now theTiming theCycleTiming breakCycleTime wTank st).showMenuAfterStop = true ∧
       (runMotor cmd now theTiming theCycleTiming breakCycleTime wTank st).runMode = .IDLE ∧
       (runMotor cmd now theTiming theCycleTiming breakCycleTime wTank st).stopSignals = st.stopSignals + 1) ∧
    ((runMotor .CONTINUE 7000 10 2835 2535 71
        (runMotor .START 2000 10 2835 2535 71 motorInit)).stopSignals = 0 ∧
     (runMotor .CONTINUE 7000 10 2835 2535 71
        (runMotor .START 2000 10 2835 2535 71 motorInit)).showMenuAfterStop = false) ∧
    ((runMotor .CONTINUE 12001 10 2835 2535 71
        (runMotor .CONTINUE 7000 10 2835 2535 71
          (runMotor .START 2000 10 2835 2535 71 motorInit))).stopSignals = 1 ∧
     (runMotor .CONTINUE 12001 10 2835 2535 71
        (runMotor .CONTINUE 7000 10 2835 2535 71
          (runMotor .START 2000 10 2835 2535 71 motorInit))).showMenuAfterStop = true ∧
     (runMotor .CONTINUE 12001 10 2835 2535 71
        (runMotor .CONTINUE 7000 10 2835 2535 71
          (runMotor .START 2000 10 2835 2535 71 motorInit))).rpwm = 0 ∧
     (runMotor .CONTINUE 12001 10 2835 2535 71
        (runMotor .CONTINUE 7000 10 2835 2535 71
          (runMotor .START 2000 10 2835 2535 71 motorInit))).lpwm = 0 ∧
     (runMotor .CONTINUE 12001 10 2835 2535 71
        (runMotor .CONTINUE 7000 10 2835 2535 71
          (runMotor .START 2000 10 2835 2535 71 motorInit))).runMode = .IDLE) := by
  refine ⟨?_, by decide, by decide⟩
  intro cmd now theTiming theCycleTiming breakCycleTime wTank st hfs hrun helap
  have hstart : ¬(cmd = .START ∧ st.motorRunStartTime = 0) := by
    rintro ⟨-, h0⟩; exact hrun h0
  simp only [runMotor]
  rw [if_neg hstart, if_neg hfs]
  obtain ⟨p1, p2, -, -⟩ := motorPhaseStage_pres now theCycleTiming breakCycleTime st
  obtain ⟨d1, d2⟩ :=
    motorDirStage_pres now theCycleTiming (motorPhaseStage now theCycleTiming breakCycleTime st)
  have hrun2 :
      (motorDirStage now theCycleTiming
        (motorPhaseStage now theCycleTiming breakCycleTime st)).motorRunStartTime =
        st.motorRunStartTime := by rw [d1, p1]
  rw [if_pos ⟨by rw [hrun2]; exact hrun, by rw [hrun2]; exact helap⟩]
  simp [motorTimedStop, d2, p2]

/-- Witness for C1: the general stop fact applied at a concrete running
state (started at tick 2000, polled at tick 12001 of a 10 s run). -/
theorem total_duration_stop_witness :
    (runMotor .CONTINUE 12001 10 2835 2535 71
      ⟨2000, 2000, .CW, 255, 10, 0, false, false, 0, .DEV, 0⟩).rpwm = 0 ∧
    (runMotor .CONTINUE 12001 10 2835 2535 71
      ⟨2000, 2000, .CW, 255, 10, 0, false, false, 0, .DEV, 0⟩).lpwm = 0 ∧
    (runMotor .CONTINUE 12001 10 2835 2535 71
      ⟨2000, 2000, .CW, 255, 10, 0, false, false, 0, .DEV, 0⟩).motorRunStartTime = 0 ∧
    (runMotor .CONTINUE 12001 10 2835 2535 71
      ⟨2000, 2000, .CW, 255, 10, 0, false, false, 0, .DEV, 0⟩).currentStateMotor = .FORCESTOP ∧
    (runMotor .CONTINUE 12001 10 2835 2535 71
      ⟨2000, 2000, .CW, 255, 10, 0, false, false, 0, .DEV, 0⟩).beepActive = false ∧
    (runMotor .CONTINUE 12001 10 2835 2535 71
      ⟨2000, 2000, .CW, 255, 10, 0, false, false, 0, .DEV, 0⟩).showMenuAfterStop = true ∧
    (runMotor .CONTINUE 12001 10 2835 2535 71
      ⟨2000, 2000, .CW, 255, 10, 0, false, false, 0, .DEV, 0⟩).runMode = .IDLE ∧
    (runMotor .CONTINUE 12001 10 2835 2535 71
      ⟨2000, 2000, .CW, 255, 10, 0, false, false, 0, .DEV, 0⟩).stopSignals = 0 + 1 :=
  total_duration_stop.1 .CONTINUE 12001 10 2835 2535 71
    ⟨2000, 2000, .CW, 255, 10, 0, false, false, 0, .DEV, 0⟩
    (by decide) (by decide) (by decide)

theorem runLatch_cons (st : LatchState) (p : Nat × Int) (L : List (Nat × Int)) :
    runLatch st (p :: L) = runLatch (latchStep st p.1 p.2) L := rfl

/-- If folding the latch over samples ends latched, then either it
started latched or the sample list contains a hold window continuing
the run anchored at the initial `inBandStartMs`. -/
theorem runLatch_window (L : List (Nat × Int)) (st : LatchState)
    (h : (runLatch st L).readyLatched = true) :
    st.readyLatched = true ∨ hasHoldWindow st.inBandStartMs L = true := by
  induction L generalizing st with
  | nil => exact Or.inl h
  | cons p rest ih =>
    obtain ⟨t, d⟩ := p
    rw [runLatch_cons] at h
    cases hlat : st.readyLatched with
    | true => exact Or.inl rfl
    | false =>
      right
      by_cases hd : d ≤ BAND_IN_10
      · have hstep : latchStep st t d =
            ⟨(if st.inBandStartMs = 0 then t else st.inBandStartMs),
             decide (t - (if st.inBandStartMs = 0 then t else st.inBandStartMs) ≥ HOLD_MS)⟩ := by
          simp [latchStep, hlat, hd]
        rcases ih (latchStep st t d) h with h1 | h2
        · rw [hstep] at h1
          simp only [decide_eq_true_eq] at h1
          simp [hasHoldWindow, hd, h1]
        · rw [hstep] at h2
          simp [hasHoldWindow, hd, h2]
      · have hstep : latchStep st t d = ⟨0, false⟩ := by
          simp [latchStep, hlat, hd]
        rcases ih (latchStep st t d) h with h1 | h2
        · rw [hstep] at h1; exact absurd h1 (by simp)
        · rw [hstep] at h2
          simpa [hasHoldWindow, hd] using h2

/-- Extracting the actual window from `hasHoldWindow`: either the list
contains a contiguous run of in-band samples whose head is at least
`HOLD_MS` older than a later member, or (when `s ≠ 0`) an in-band
prefix continues the run anchored at `s` past the hold deadline. -/
theorem holdWindow_extract (L : List (Nat × Int)) (s : Nat)
    (h : hasHoldWindow s L = true) :
    (∃ pre mid post, L = pre ++ mid ++ post ∧ mid ≠ [] ∧
       (∀ x ∈ mid, x.2 ≤ BAND_IN_10) ∧
       ∃ a, mid.head? = some a ∧ ∃ b ∈ mid, HOLD_MS ≤ b.1 - a.1) ∨
    (s ≠ 0 ∧ ∃ mid post, L = mid ++ post ∧ mid ≠ [] ∧
       (∀ x ∈ mid, x.2 ≤ BAND_IN_10) ∧
       ∃ b ∈ mid, HOLD_MS ≤ b.1 - s) := by
  induction L generalizing s with
  | nil => simp [hasHoldWindow] at h
  | cons p rest ih =>
    obtain ⟨t, d⟩ := p
    by_cases hd : d ≤ BAND_IN_10
    · by_cases hs : s = 0
      · subst hs
        have h' : hasHoldWindow t rest = true := by
          have := h
          simp [hasHoldWindow, hd, HOLD_MS] at this
          simpa using this
        rcases ih t h' with ⟨pre, mid, post, hL, hne, hband, ha⟩ | ⟨ht0, mid, post, hL, hne, hband, b, hb, hspan⟩
        · exact Or.inl ⟨(t, d) :: pre, mid, post, by simp [hL], hne, hband, ha⟩
        · refine Or.inl ⟨[], (t, d) :: mid, post, by simp [hL], by simp, ?_, ?_⟩
          · intro x hx
            rcases List.mem_cons.mp hx with hx | hx
            · simpa [hx] using hd
            · exact hband x hx
          · exact ⟨(t, d), rfl, b, List.mem_cons_of_mem _ hb, hspan⟩
      · have h' : HOLD_MS ≤ t - s ∨ hasHoldWindow s rest = true := by
          have := h
          simp [hasHoldWindow, hd, hs] at this
          tauto
        rcases h' with hwin | h'
        · exact Or.inr ⟨hs, [(t, d)], rest, rfl, by simp, by simpa using hd,
            (t, d), by simp, hwin⟩
        · rcases ih s h' with ⟨pre, mid, post, hL, hne, hband, ha⟩ | ⟨-, mid, post, hL, hne, hband, b, hb, hspan⟩
          · exact Or.inl ⟨(t, d) :: pre, mid, post, by simp [hL], hne, hband, ha⟩
          · refine Or.inr ⟨hs, (t, d) :: mid, post, by simp [hL], by simp, ?_,
              b, List.mem_cons_of_mem _ hb, hspan⟩
            intro x hx
            rcases List.mem_cons.mp hx with hx | hx
            · simpa [hx] using hd
            · exact hband x hx
    · have h' : hasHoldWindow 0 rest = true := by
        have := h
        simpa [hasHoldWindow, hd] using this
      rcases ih 0 h' with ⟨pre, mid, post, hL, hne, hband, ha⟩ | ⟨h0, -⟩
      · exact Or.inl ⟨(t, d) :: pre, mid, post, by simp [hL], hne, hband, ha⟩
      · exact absurd rfl h0

/-- Claim C6 (preheat readiness latch hysteresis): while preheating on
one profile with a valid bath reading —
(1) once `inBandStartMs` is set it is cleared exactly when the
difference leaves the enter band (unlatched) resp. the exit band
(latched);
(2) readiness is entered only with the difference inside the ±0.3 C
enter band and an in-band anchor at least `HOLD_MS = 30000` ms old;
(3) once latched, readiness drops exactly when the difference exceeds
the ±0.5 C exit band;
(4) a fresh latch run that ends latched must contain a contiguous
sub-run of in-band samples spanning at least the hold duration;
(5) with an invalid bath reading, readiness is just
"elapsed preheat time ≥ `PREHEAT_READY_MS`" and the latch is untouched. -/
theorem preheat_latch_hysteresis :
    (∀ (st : PreheatState) (pre now : Nat) (cp : Nat) (b10 : Int),
      pre ≠ 0 → st.lastProf = cp → st.inBandStartMs ≠ 0 →
      ((isPreheatReady .PREHEAT pre now cp (some b10) st).2.inBandStartMs = 0 ↔
        (if st.readyLatched then BAND_OUT_10 < |b10 - (profileAt cp).setC_tenths|
         else BAND_IN_10 < |b10 - (profileAt cp).setC_tenths|))) ∧
    (∀ (st : PreheatState) (pre now : Nat) (cp : Nat) (b10 : Int),
      pre ≠ 0 → st.lastProf = cp → st.readyLatched = false →
      (isPreheatReady .PREHEAT pre now cp (some b10) st).1 = true →
      |b10 - (profileAt cp).setC_tenths| ≤ BAND_IN_10 ∧
      st.inBandStartMs ≠ 0 ∧ HOLD_MS ≤ now - st.inBandStartMs) ∧
    (∀ (st : PreheatState) (pre now : Nat) (cp : Nat) (b10 : Int),
      pre ≠ 0 → st.lastProf = cp → st.readyLatched = true →
      ((isPreheatReady .PREHEAT pre now cp (some b10) st).1 = false ↔
        BAND_OUT_10 < |b10 - (profileAt cp).setC_tenths|)) ∧
    (∀ L : List (Nat × Int),
      (runLatch ⟨0, false⟩ L).readyLatched = true →
      ∃ pre mid post, L = pre ++ mid ++ post ∧ mid ≠ [] ∧
        (∀ x ∈ mid, x.2 ≤ BAND_IN_10) ∧
        ∃ a, mid.head? = some a ∧ ∃ b ∈ mid, HOLD_MS ≤ b.1 - a.1) ∧
    (∀ (st : PreheatState) (pre now : Nat) (cp : Nat),
      pre ≠ 0 → st.lastProf = cp →
      isPreheatReady .PREHEAT pre now cp none st =
        (decide (now - pre ≥ PREHEAT_READY_MS), st)) := by
  refine ⟨?_, ?_, ?_, ?_, ?_⟩
  · intro st pre now cp b10 hpre hprof hband
    have hmode : ¬(RunMode.PREHEAT ≠ RunMode.PREHEAT ∨ pre = 0) := by simp [hpre]
    have hp2 : ¬(st.lastProf ≠ cp) := by simp [hprof]
    simp only [isPreheatReady]
    rw [if_neg hmode, if_neg hp2]
    cases hlat : st.readyLatched with
    | true =>
      simp only [latchStep, hlat, Bool.not_true, Bool.false_eq_true, if_false]
      split <;> rename_i hdiff <;> simp_all
    | false =>
      simp only [latchStep, hlat, Bool.not_false, if_true]
      split <;> rename_i hdiff
      · simp only [if_neg hband]
        simp_all [not_lt.mpr hdiff]
      · simp_all [not_le.mp hdiff]
  · intro st pre now cp b10 hpre hprof hlat hready
    have hmode : ¬(RunMode.PREHEAT ≠ RunMode.PREHEAT ∨ pre = 0) := by simp [hpre]
    have hp2 : ¬(st.lastProf ≠ cp) := by simp [hprof]
    simp only [isPreheatReady] at hready
    rw [if_neg hmode, if_neg hp2] at hready
    simp only [latchStep, hlat, Bool.not_false, if_true] at hready
    by_cases hdiff : |b10 - (profileAt cp).setC_tenths| ≤ BAND_IN_10
    · rw [if_pos hdiff] at hready
      simp only [decide_eq_true_eq, ge_iff_le] at hready
      by_cases hb : st.inBandStartMs = 0
      · rw [if_pos hb] at hready
        simp [HOLD_MS] at hready
      · rw [if_neg hb] at hready
        exact ⟨hdiff, hb, hready⟩
    · rw [if_neg hdiff] at hready
      simp at hready
  · intro st pre now cp b10 hpre hprof hlat
    have hmode : ¬(RunMode.PREHEAT ≠ RunMode.PREHEAT ∨ pre = 0) := by simp [hpre]
    have hp2 : ¬(st.lastProf ≠ cp) := by simp [hprof]
    simp only [isPreheatReady]
    rw [if_neg hmode, if_neg hp2]
    simp only [latchStep, hlat, Bool.not_true, Bool.false_eq_true, if_false]
    split <;> rename_i hdiff <;> simp_all
  · intro L h
    rcases runLatch_window L ⟨0, false⟩ h with h1 | h2
    · exact absurd h1 (by simp)
    · rcases holdWindow_extract L 0 h2 with hfull | ⟨h0, -⟩
      · exact hfull
      · exact absurd rfl h0
  · intro st pre now cp hpre hprof
    have hmode : ¬(RunMode.PREHEAT ≠ RunMode.PREHEAT ∨ pre = 0) := by simp [hpre]
    have hp2 : ¬(st.lastProf ≠ cp) := by simp [hprof]
    simp only [isPreheatReady]
    rw [if_neg hmode, if_neg hp2]

/-- Witness for C6: each latch fact instantiated — unlatched anchor
cleared on a 1.0 C error and kept on a 0.1 C error; a readiness entry at
the 30 s deadline; a latched drop on a 0.6 C error; a two-sample trace
that latches; the time fallback for an invalid bath. -/
theorem preheat_latch_hysteresis_witness :
    ((isPreheatReady .PREHEAT 2000 5000 1 (some 390) ⟨3000, false, 1⟩).2.inBandStartMs = 0 ↔
      (if (false : Bool) then BAND_OUT_10 < |(390 : Int) - (profileAt 1).setC_tenths|
       else BAND_IN_10 < |(390 : Int) - (profileAt 1).setC_tenths|)) ∧
    (|(380 : Int) - (profileAt 1).setC_tenths| ≤ BAND_IN_10 ∧
      (3000 : Nat) ≠ 0 ∧ HOLD_MS ≤ 33000 - 3000) ∧
    ((isPreheatReady .PREHEAT 2000 5000 1 (some 386) ⟨3000, true, 1⟩).1 = false ↔
      BAND_OUT_10 < |(386 : Int) - (profileAt 1).setC_tenths|) ∧
    (∃ pre mid post, [((2000 : Nat), (0 : Int)), (32000, 0)] = pre ++ mid ++ post ∧
      mid ≠ [] ∧ (∀ x ∈ mid, x.2 ≤ BAND_IN_10) ∧
      ∃ a, mid.head? = some a ∧ ∃ b ∈ mid, HOLD_MS ≤ b.1 - a.1) ∧
    (isPreheatReady .PREHEAT 2000 13000 1 none ⟨0, false, 1⟩ =
      (decide (13000 - 2000 ≥ PREHEAT_READY_MS), ⟨0, false, 1⟩)) :=
  ⟨preheat_latch_hysteresis.1 ⟨3000, false, 1⟩ 2000 5000 1 390 (by decide) rfl (by decide),
   preheat_latch_hysteresis.2.1 ⟨3000, false, 1⟩ 2000 33000 1 380 (by decide) rfl rfl (by decide),
   preheat_latch_hysteresis.2.2.1 ⟨3000, true, 1⟩ 2000 5000 1 386 (by decide) rfl rfl,
   preheat_latch_hysteresis.2.2.2.1 [(2000, 0), (32000, 0)] (by decide),
   preheat_latch_hysteresis.2.2.2.2 ⟨0, false, 1⟩ 2000 13000 1 (by decide) rfl⟩

theorem thermoLag_pres (inp : ThermoIn) (st : ThermoState) :
    (thermoLag inp st).devJustStarted = st.devJustStarted ∧
    (thermoLag inp st).seedCount = st.seedCount ∧
    (thermoLag inp st).seedValue = st.seedValue := by
  simp only [thermoLag]
  split <;> simp

theorem thermo_seed_fires (inp : ThermoIn) (st : ThermoState)
    (h1 : st.devJustStarted = true) (h2 : inp.runMode = .DEV)
    (h3 : 0 < inp.motorRunStartTime) :
    (updateDerivedTemps inp st).devJustStarted = false ∧
    (updateDerivedTemps inp st).seedCount = st.seedCount + 1 := by
  have hcond : (st.devJustStarted = true ∧ inp.runMode = .DEV ∧ inp.motorRunStartTime > 0) :=
    ⟨h1, h2, h3⟩
  obtain ⟨l1, l2, -⟩ := thermoLag_pres inp (thermoSeed inp st)
  simp only [updateDerivedTemps]
  rw [l1, l2]
  simp only [thermoSeed]
  rw [if_pos hcond]
  exact ⟨rfl, rfl⟩

theorem thermo_no_rearm (inp : ThermoIn) (st : ThermoState)
    (h : st.devJustStarted = false) :
    (updateDerivedTemps inp st).devJustStarted = false ∧
    (updateDerivedTemps inp st).seedCount = st.seedCount ∧
    (updateDerivedTemps inp st).seedValue = st.seedValue := by
  have hnc : ¬(st.devJustStarted = true ∧ inp.runMode = .DEV ∧ inp.motorRunStartTime > 0) := by
    simp [h]
  obtain ⟨l1, l2, l3⟩ := thermoLag_pres inp (thermoSeed inp st)
  simp only [updateDerivedTemps]
  rw [l1, l2, l3]
  simp only [thermoSeed]
  rw [if_neg hnc]
  exact ⟨h, rfl, rfl⟩

theorem runThermo_no_rearm (L : List ThermoIn) (st : ThermoState)
    (h : st.devJustStarted = false) :
    (runThermo st L).seedCount = st.seedCount ∧
    (runThermo st L).devJustStarted = false := by
  induction L generalizing st with
  | nil => exact ⟨rfl, h⟩
  | cons i rest ih =>
    have hstep := thermo_no_rearm i st h
    have : runThermo st (i :: rest) = runThermo (updateDerivedTemps i st) rest := rfl
    rw [this]
    obtain ⟨hc, hd⟩ := ih (updateDerivedTemps i st) hstep.1
    exact ⟨by rw [hc, hstep.2.1], hd⟩

/-- Claim C8 (one-shot lag seed at development start): with the seed
armed (`devJustStarted`), in development mode with the motor running and
a valid bottle reading, the next thermal update assigns the lag state
its initial condition from the bottle reading in tenths minus the
profile's pour-cooling offset (ghost `seedValue` records the assigned
value; it is bottle-derived, not the driver temperature), disarms the
seed and bumps the ghost `seedCount`; a disarmed update never re-fires;
hence over any continuation of the run the seed fires exactly once. -/
theorem dev_seed_one_shot :
    (∀ (inp : ThermoIn) (st : ThermoState),
      st.devJustStarted = true → inp.runMode = .DEV → 0 < inp.motorRunStartTime →
      isValidTempC inp.tempBottleC = true →
      (updateDerivedTemps inp st).devJustStarted = false ∧
      (updateDerivedTemps inp st).seedCount = st.seedCount + 1 ∧
      (updateDerivedTemps inp st).seedValue =
        some (((roundC_to_10 inp.tempBottleC -
          (profileAt inp.currentProfile).dT_pour_10 : Int) : ℚ) / 10)) ∧
    (∀ (inp : ThermoIn) (st : ThermoState),
      st.devJustStarted = false →
      (updateDerivedTemps inp st).devJustStarted = false ∧
      (updateDerivedTemps inp st).seedCount = st.seedCount ∧
      (updateDerivedTemps inp st).seedValue = st.seedValue) ∧
    (∀ (inp : ThermoIn) (st : ThermoState) (L : List ThermoIn),
      st.devJustStarted = true → inp.runMode = .DEV → 0 < inp.motorRunStartTime →
      (runThermo (updateDerivedTemps inp st) L).seedCount = st.seedCount + 1) := by
  refine ⟨?_, thermo_no_rearm, ?_⟩
  · intro inp st h1 h2 h3 h4
    have hcond : (st.devJustStarted = true ∧ inp.runMode = .DEV ∧ inp.motorRunStartTime > 0) :=
      ⟨h1, h2, h3⟩
    obtain ⟨l1, l2, l3⟩ := thermoLag_pres inp (thermoSeed inp st)
    simp only [updateDerivedTemps]
    rw [l1, l2, l3]
    simp only [thermoSeed]
    rw [if_pos hcond, if_pos h4]
    exact ⟨rfl, rfl, rfl⟩
  · intro inp st L h1 h2 h3
    have hfirst := thermo_seed_fires inp st h1 h2 h3
    have hrest := runThermo_no_rearm L (updateDerivedTemps inp st) hfirst.1
    rw [hrest.1, hfirst.2]

/-- Witness for C8: a concrete armed update (dev run started, bottle at
37.5 C, profile 1 = C-41 with 0.5 C pour cooling) seeds 37.0 C
(= (375 − 5)/10), disarms, and any continuation keeps the count at 1. -/
theorem dev_seed_one_shot_witness :
    ((updateDerivedTemps ⟨.DEV, 2000, 1, 150, 71, 38, 38, 37.5⟩
        ⟨SENTINEL_C, SENTINEL_C, true, 0, none⟩).devJustStarted = false ∧
     (updateDerivedTemps ⟨.DEV, 2000, 1, 150, 71, 38, 38, 37.5⟩
        ⟨SENTINEL_C, SENTINEL_C, true, 0, none⟩).seedCount = 0 + 1 ∧
     (updateDerivedTemps ⟨.DEV, 2000, 1, 150, 71, 38, 38, 37.5⟩
        ⟨SENTINEL_C, SENTINEL_C, true, 0, none⟩).seedValue =
       some (((roundC_to_10 (37.5 : ℚ) - (profileAt 1).dT_pour_10 : Int) : ℚ) / 10)) ∧
    (runThermo (updateDerivedTemps ⟨.DEV, 2000, 1, 150, 71, 38, 38, 37.5⟩
        ⟨SENTINEL_C, SENTINEL_C, true, 0, none⟩)
      [⟨.DEV, 2000, 1, 150, 71, 38, 38, 37.5⟩]).seedCount = 0 + 1 :=
  ⟨dev_seed_one_shot.1 ⟨.DEV, 2000, 1, 150, 71, 38, 38, 37.5⟩
      ⟨SENTINEL_C, SENTINEL_C, true, 0, none⟩ rfl rfl (by decide)
      (by norm_num [isValidTempC]),
   dev_seed_one_shot.2.2 ⟨.DEV, 2000, 1, 150, 71, 38, 38, 37.5⟩
      ⟨SENTINEL_C, SENTINEL_C, true, 0, none⟩
      [⟨.DEV, 2000, 1, 150, 71, 38, 38, 37.5⟩] rfl rfl (by decide)⟩

end FPP
